import Mathlib

/-!
Shallow embedding of the Beam-Calculator solver core (Solver.py,
SuperSolver.py, Stress_solver.py) over exact rational arithmetic.
Loads are the four record shapes the solver consumes; the numpy arrays
of the source become Lean lists, accumulation loops become map/sum.
-/

/-- A point load row `[Xp, Fx, Fy]` (Solver.py `pointloads[n]`). -/
structure PointLoad where
  xp : ℚ
  fx : ℚ
  fy : ℚ

/-- A point moment row `[Xm, m]` (Solver.py `momentloads[n]`). -/
structure MomentLoad where
  xm : ℚ
  m : ℚ

/-- A uniform distributed load row `[Xstart, Xend, Fy]` (Solver.py `distributedloads[n]`). -/
structure DistLoad where
  xstart : ℚ
  xend : ℚ
  fy : ℚ

/-- A triangular distributed load row `[Xstart, Xend, Fy_start, Fy_end]`
(Solver.py `triangleloads[n]`). -/
structure TriLoad where
  xstart : ℚ
  xend : ℚ
  fyStart : ℚ
  fyEnd : ℚ

/-- UDL resultant `Fy_res = Fy * (Xend - Xstart)` (Solver.py line 64). -/
def DistLoad.Fres (d : DistLoad) : ℚ := d.fy * (d.xend - d.xstart)

/-- UDL resultant position `X_res = Xstart + 0.5 * (Xend - Xstart)` (Solver.py line 65). -/
def DistLoad.Xres (d : DistLoad) : ℚ := d.xstart + (1/2) * (d.xend - d.xstart)

/-- TRL resultant force used by the simple-beam reaction solver
(Solver.py lines 73-77): `0.5*Fy_start*(Xend-Xstart)` when `abs(Fy_start) > 0`,
else `0.5*Fy_end*(Xend-Xstart)`. -/
def TriLoad.Fres (t : TriLoad) : ℚ :=
  if |t.fyStart| > 0 then (1/2) * t.fyStart * (t.xend - t.xstart)
  else (1/2) * t.fyEnd * (t.xend - t.xstart)

/-- TRL resultant position used by the simple-beam reaction solver
(Solver.py lines 75-78): `Xstart + (1/3)*(Xend-Xstart)` when `abs(Fy_start) > 0`,
else `Xstart + (2/3)*(Xend-Xstart)`. -/
def TriLoad.Xres (t : TriLoad) : ℚ :=
  if |t.fyStart| > 0 then t.xstart + (1/3) * (t.xend - t.xstart)
  else t.xstart + (2/3) * (t.xend - t.xstart)

/-- TRL total force used by the cantilever reaction solver
(Solver.py lines 135-137): average intensity times length. -/
def TriLoad.totalForce (t : TriLoad) : ℚ :=
  ((t.fyStart + t.fyEnd) / 2) * (t.xend - t.xstart)

/-- TRL centroid used by the cantilever reaction solver (Solver.py lines 142-161):
trapezoid rule when both end intensities are nonzero, else the 1/3 (peak at
start) or 2/3 (peak at end) triangle rule, else the midpoint. -/
def TriLoad.centroid (t : TriLoad) : ℚ :=
  let length := t.xend - t.xstart
  if |t.fyStart| > 0 ∧ |t.fyEnd| > 0 then
    let h1 := |t.fyStart|
    let h2 := |t.fyEnd|
    let offset := length * (h1 + 2*h2) / (3 * (h1 + h2))
    if |t.fyStart| > |t.fyEnd| then t.xstart + offset else t.xend - offset
  else if |t.fyStart| > 0 then t.xstart + length / 3
  else if |t.fyEnd| > 0 then t.xstart + 2 * length / 3
  else (t.xstart + t.xend) / 2

/-- Solver.py `calculate_all_reactions` (lines 29-82): simple-beam support
reactions, returned as `(Va, Vb, Ha)`.  Each accumulation loop of the source
becomes a map/sum over the corresponding load list. -/
def calculate_all_reactions (A B : ℚ) (pls : List PointLoad) (mls : List MomentLoad)
    (dls : List DistLoad) (tls : List TriLoad) : ℚ × ℚ × ℚ :=
  let Va :=
    (pls.map (fun p => -p.fy - p.fy * (A - p.xp) / (B - A))).sum
    + (mls.map (fun m => -(m.m / (B - A)))).sum
    + (dls.map (fun d => -d.Fres - d.Fres * (A - d.Xres) / (B - A))).sum
    + (tls.map (fun t => -t.Fres - t.Fres * (A - t.Xres) / (B - A))).sum
  let Vb :=
    (pls.map (fun p => p.fy * (A - p.xp) / (B - A))).sum
    + (mls.map (fun m => m.m / (B - A))).sum
    + (dls.map (fun d => d.Fres * (A - d.Xres) / (B - A))).sum
    + (tls.map (fun t => t.Fres * (A - t.Xres) / (B - A))).sum
  let Ha := (pls.map (fun p => p.fx)).sum
  (Va, Vb, Ha)

/-- Solver.py `Calculate_Cantilever_Reactions` (lines 87-167): fixed-support
reactions of a cantilever, returned as `(Va, Ha, Ma)`. -/
def Calculate_Cantilever_Reactions (pls : List PointLoad) (mls : List MomentLoad)
    (dls : List DistLoad) (tls : List TriLoad) : ℚ × ℚ × ℚ :=
  let Va :=
    (pls.map (fun p => -p.fy)).sum
    + (dls.map (fun d => -(d.fy * (d.xend - d.xstart)))).sum
    + (tls.map (fun t => -t.totalForce)).sum
  let Ha := (pls.map (fun p => -p.fx)).sum
  let Ma :=
    (pls.map (fun p => -(p.fy * p.xp))).sum
    + (mls.map (fun m => -m.m)).sum
    + (dls.map (fun d => -(d.fy * (d.xend - d.xstart) * ((d.xstart + d.xend) / 2)))).sum
    + (tls.map (fun t => -(t.totalForce * t.centroid))).sum
  (Va, Ha, Ma)

/-- Total applied vertical force of a load set: point loads contribute `Fy`,
UDLs `Fy*(Xend-Xstart)`, TRLs the exact trapezoid integral
`((Fy_start+Fy_end)/2)*(Xend-Xstart)`; point moments contribute none.
This is the spec-side quantity of the equilibrium invariant. -/
def totalAppliedFy (pls : List PointLoad) (dls : List DistLoad) (tls : List TriLoad) : ℚ :=
  (pls.map (fun p => p.fy)).sum
  + (dls.map (fun d => d.fy * (d.xend - d.xstart))).sum
  + (tls.map (fun t => ((t.fyStart + t.fyEnd) / 2) * (t.xend - t.xstart))).sum

/-- Shear contribution of one UDL at position `x`
(Solver.py lines 222-228, shear part). -/
def udlShearTerm (d : DistLoad) (x : ℚ) : ℚ :=
  if d.xstart < x ∧ x ≤ d.xend then d.fy * (x - d.xstart)
  else if x > d.xend then d.fy * (d.xend - d.xstart)
  else 0

/-- Raw (pre-negation) moment contribution of one UDL at `x`
(Solver.py lines 222-228, moment part; the source subtracts these terms). -/
def udlMomentTerm (d : DistLoad) (x : ℚ) : ℚ :=
  if d.xstart < x ∧ x ≤ d.xend then -(d.fy * (x - d.xstart) * (1/2) * (x - d.xstart))
  else if x > d.xend then -(d.fy * (d.xend - d.xstart) * (x - d.xstart - (1/2) * (d.xend - d.xstart)))
  else 0

/-- Shear contribution of one TRL at `x` (Solver.py lines 233-258, shear part):
inside the span the partial trapezoid splits into triangle `R1` and rectangle
`R2`; beyond the span the full-triangle resultant applies. -/
def trlShearTerm (t : TriLoad) (x : ℚ) : ℚ :=
  if t.xstart < x ∧ x ≤ t.xend then
    if |t.fyStart| > 0 then
      let Xbase := x - t.xstart
      let Fcut := t.fyStart - Xbase * (t.fyStart / (t.xend - t.xstart))
      let R1 := (1/2) * Xbase * (t.fyStart - Fcut)
      let R2 := Xbase * Fcut
      R1 + R2
    else
      let Xbase := x - t.xstart
      let Fcut := t.fyEnd * (Xbase / (t.xend - t.xstart))
      (1/2) * Xbase * Fcut
  else if x > t.xend then
    if |t.fyStart| > 0 then (1/2) * t.fyStart * (t.xend - t.xstart)
    else (1/2) * t.fyEnd * (t.xend - t.xstart)
  else 0

/-- Raw (pre-negation) moment contribution of one TRL at `x`
(Solver.py lines 233-258, moment part). -/
def trlMomentTerm (t : TriLoad) (x : ℚ) : ℚ :=
  if t.xstart < x ∧ x ≤ t.xend then
    if |t.fyStart| > 0 then
      let Xbase := x - t.xstart
      let Fcut := t.fyStart - Xbase * (t.fyStart / (t.xend - t.xstart))
      let R1 := (1/2) * Xbase * (t.fyStart - Fcut)
      let R2 := Xbase * Fcut
      let res := -(R1 * (2/3) * Xbase + R2 * (1/2) * Xbase)
      res
    else
      let Xbase := x - t.xstart
      let Fcut := t.fyEnd * (Xbase / (t.xend - t.xstart))
      let R := (1/2) * Xbase * Fcut
      let res := -(R * (1/3) * Xbase)
      res
  else if x > t.xend then
    if |t.fyStart| > 0 then
      let R := (1/2) * t.fyStart * (t.xend - t.xstart)
      let Xr := t.xstart + (1/3) * (t.xend - t.xstart)
      let res := -(R * (x - Xr))
      res
    else
      let R := (1/2) * t.fyEnd * (t.xend - t.xstart)
      let Xr := t.xstart + (2/3) * (t.xend - t.xstart)
      let res := -(R * (x - Xr))
      res
  else 0

/-- Shear at one sample `x` of the simple-beam field solver
(Solver.py `calculate_sf_bm` inner loop, shear accumulator). -/
def sfAt (A B : ℚ) (R : ℚ × ℚ × ℚ) (pls : List PointLoad)
    (dls : List DistLoad) (tls : List TriLoad) (x : ℚ) : ℚ :=
  (if x > A then R.1 else 0) + (if x > B then R.2.1 else 0)
  + (pls.map (fun p => if x > p.xp then p.fy else 0)).sum
  + (dls.map (fun d => udlShearTerm d x)).sum
  + (tls.map (fun t => trlShearTerm t x)).sum

/-- Raw moment accumulator at one sample `x` of the simple-beam field solver
(Solver.py `calculate_sf_bm` inner loop, before the final negation). -/
def bmRawAt (A B : ℚ) (R : ℚ × ℚ × ℚ) (pls : List PointLoad) (mls : List MomentLoad)
    (dls : List DistLoad) (tls : List TriLoad) (x : ℚ) : ℚ :=
  (if x > A then -(R.1 * (x - A)) else 0) + (if x > B then -(R.2.1 * (x - B)) else 0)
  + (pls.map (fun p => if x > p.xp then -(p.fy * (x - p.xp)) else 0)).sum
  + (mls.map (fun m => if x > m.xm then -m.m else 0)).sum
  + (dls.map (fun d => udlMomentTerm d x)).sum
  + (tls.map (fun t => trlMomentTerm t x)).sum

/-- Solver.py `calculate_sf_bm` (lines 172-264): shear and bending-moment
arrays over the discretized grid; the source returns `ShearForce, -BendingMoment`. -/
def calculate_sf_bm (X : List ℚ) (A B : ℚ) (pls : List PointLoad) (mls : List MomentLoad)
    (dls : List DistLoad) (tls : List TriLoad) (R : ℚ × ℚ × ℚ) : List ℚ × List ℚ :=
  (X.map (sfAt A B R pls dls tls),
   X.map (fun x => -(bmRawAt A B R pls mls dls tls x)))

/-- Shear at one sample `x` of the cantilever field solver
(Solver.py `Calculate_SF_BM_Cantilever` inner loop, shear accumulator):
loads strictly to the right of `x` contribute; a TRL contributes only when
`max x Xstart == x`, i.e. when `Xstart ≤ x < Xend` (the source adds nothing
for a TRL lying entirely to the right of `x`). -/
def cantSfAt (pls : List PointLoad) (dls : List DistLoad) (tls : List TriLoad) (x : ℚ) : ℚ :=
  (pls.map (fun p => if p.xp > x then -p.fy else 0)).sum
  + (dls.map (fun d =>
      if d.xend > x then
        let startPos := max x d.xstart
        let res := -(d.fy * (d.xend - startPos))
        res
      else 0)).sum
  + (tls.map (fun t =>
      if t.xend > x ∧ max x t.xstart = x then
        let s := if t.xend > t.xstart then (x - t.xstart) / (t.xend - t.xstart) else 0
        let FyAtX := t.fyStart + s * (t.fyEnd - t.fyStart)
        let remaining := t.xend - x
        let res := -(((FyAtX + t.fyEnd) / 2) * remaining)
        res
      else 0)).sum

/-- Moment at one sample `x` of the cantilever field solver
(Solver.py `Calculate_SF_BM_Cantilever` inner loop, moment accumulator). -/
def cantBmAt (pls : List PointLoad) (mls : List MomentLoad)
    (dls : List DistLoad) (tls : List TriLoad) (x : ℚ) : ℚ :=
  (pls.map (fun p => if p.xp > x then -(p.fy * (p.xp - x)) else 0)).sum
  + (mls.map (fun m => if m.xm > x then -m.m else 0)).sum
  + (dls.map (fun d =>
      if d.xend > x then
        let startPos := max x d.xstart
        let loadLength := d.xend - startPos
        let loadTotal := d.fy * loadLength
        let loadCentroid := startPos + loadLength / 2
        let res := -(loadTotal * (loadCentroid - x))
        res
      else 0)).sum
  + (tls.map (fun t =>
      if t.xend > x ∧ max x t.xstart = x then
        let s := if t.xend > t.xstart then (x - t.xstart) / (t.xend - t.xstart) else 0
        let FyAtX := t.fyStart + s * (t.fyEnd - t.fyStart)
        let remaining := t.xend - x
        let totalForce := ((FyAtX + t.fyEnd) / 2) * remaining
        let cen :=
          if |FyAtX| > 0 ∧ |t.fyEnd| > 0 then
            let h1 := |FyAtX|
            let h2 := |t.fyEnd|
            let offset := remaining * (h1 + 2*h2) / (3 * (h1 + h2))
            if |FyAtX| > |t.fyEnd| then x + offset else t.xend - offset
          else if |FyAtX| > 0 then x + remaining / 3
          else if |t.fyEnd| > 0 then x + 2 * remaining / 3
          else (x + t.xend) / 2
        let res := -(totalForce * (cen - x))
        res
      else 0)).sum

/-- Solver.py `Calculate_SF_BM_Cantilever` (lines 269-379): per-sample sweep of
load contributions to the right of each `x`, then the fixed-end overwrite
`BendingMoment[0] = Ma`.  `Va` and `Ha` are accepted but unused, as in the
source. -/
def Calculate_SF_BM_Cantilever (X : List ℚ) (Va Ha Ma : ℚ) (pls : List PointLoad)
    (mls : List MomentLoad) (dls : List DistLoad) (tls : List TriLoad) :
    List ℚ × List ℚ :=
  let _ := Va
  let _ := Ha
  (X.map (cantSfAt pls dls tls),
   (X.map (cantBmAt pls mls dls tls)).set 0 Ma)

/-- Solver.py `initialize_solver` (lines 9-15) in exact arithmetic:
`Delta = L/divisions` and the grid `np.arange(0, L + Delta, Delta)`,
i.e. the points `k*Delta` for `k = 0 .. divisions`. -/
def initialize_solver (beam_length : ℚ) (divisions : ℕ := 10000) : List ℚ × ℚ :=
  let Delta := beam_length / divisions
  ((List.range (divisions + 1)).map (fun (k : ℕ) => (k : ℚ) * Delta), Delta)

/-- Result record returned by the high-level solvers: grid, shear array,
bending-moment array, reactions triple (`[Va, Ha, Vb]` or `[Va, Ha, Ma]`). -/
structure BeamResult where
  X : List ℚ
  SF : List ℚ
  BM : List ℚ
  R : ℚ × ℚ × ℚ

/-- Whether an `Except` value is an error. -/
def isError {ε α : Type} : Except ε α → Bool
  | Except.error _ => true
  | Except.ok _ => false

/-- Solver.py `solve_simple_beam` (lines 384-457).  The only validations the
source performs are the `beam_type` dispatch (exact strings `"Simple"` /
`"Cantilever"`, else `ValueError`) and, in the `"Simple"` branch, that both
support positions are given.  In the `"Cantilever"` branch the source unpacks
`Va, Ma, Ha = Calculate_Cantilever_Reactions(...)` (which returns
`(Va, Ha, Ma)`) and then passes `(X_Field, Va, Ma, Ha)` to
`Calculate_SF_BM_Cantilever(X_Field, Va, Ha, Ma, ...)`; the two swaps cancel,
so the net data flow embedded here hands the true `(Va, Ha, Ma)` on and stores
`[Va, Ha, Ma]` as the reactions. -/
def solve_simple_beam (beam_length : ℚ) (A B : Option ℚ)
    (pls : List PointLoad) (mls : List MomentLoad)
    (dls : List DistLoad) (tls : List TriLoad)
    (beam_type : String := "Simple") : Except String BeamResult :=
  let X := (initialize_solver beam_length).1
  if beam_type = "Simple" then
    match A, B with
    | some a, some b =>
      let R := calculate_all_reactions a b pls mls dls tls
      let sfbm := calculate_sf_bm X a b pls mls dls tls R
      Except.ok ⟨X, sfbm.1, sfbm.2, R⟩
    | _, _ => Except.error "Support positions A and B must be provided for simple beam"
  else if beam_type = "Cantilever" then
    let R := Calculate_Cantilever_Reactions pls mls dls tls
    let sfbm := Calculate_SF_BM_Cantilever X R.1 R.2.1 R.2.2 pls mls dls tls
    Except.ok ⟨X, sfbm.1, sfbm.2, R⟩
  else
    Except.error "Invalid beam_type. Choose Simple or Cantilever."

/-- Solver.py `solve_cantilever_beam` (lines 459-525): reactions, the raw
cantilever field arrays, then `CorrectedBendingMoment = -BendingMoment`. -/
def solve_cantilever_beam (beam_length : ℚ) (pls : List PointLoad)
    (dls : List DistLoad) (mls : List MomentLoad) (tls : List TriLoad) :
    BeamResult :=
  let X := (initialize_solver beam_length).1
  let R := Calculate_Cantilever_Reactions pls mls dls tls
  let sfbm := Calculate_SF_BM_Cantilever X R.1 R.2.1 R.2.2 pls mls dls tls
  ⟨X, sfbm.1, sfbm.2.map (fun q => -q), R⟩

/-- Python's `l[-1]` as a total function: the last element of the list, or
the default `d` when the list is empty. -/
def lastD (l : List ℚ) (d : ℚ) : ℚ :=
  match l with
  | [] => d
  | [a] => a
  | _ :: b :: t => lastD (b :: t) d

/-- Accumulating tail of `cumtrapz`: given the previous sample `(xp, yp)` and
the running integral `acc`, emit the running trapezoid sums of the remaining
samples. -/
def cumtrapzGo (xp yp acc : ℚ) : List ℚ → List ℚ → List ℚ
  | x :: xs, y :: ys =>
    let acc2 := acc + (x - xp) * (y + yp) / 2
    acc2 :: cumtrapzGo x y acc2 xs ys
  | _, _ => []

/-- `scipy.integrate.cumulative_trapezoid(y, x, initial=0)`: the cumulative
trapezoidal integral of the samples `ys` over the grid `xs`, starting at 0. -/
def cumtrapz (xs ys : List ℚ) : List ℚ :=
  match xs, ys with
  | x :: xs2, y :: ys2 => 0 :: cumtrapzGo x y 0 xs2 ys2
  | _, _ => []

/-- Stress_solver.py `calculate_beam_deflection` (lines 4-54): curvature
`M/(E*I)`, slope and deflection by cumulative trapezoidal integration both
starting at 0, then the unconditional linear end correction
`deflection -= deflection[-1] * (x_field / x_field[-1])`.
Returns `(deflection, slope, curvature)`. -/
def calculate_beam_deflection (x_field bending_moment : List ℚ)
    (elastic_modulus moment_of_inertia : ℚ) : List ℚ × List ℚ × List ℚ :=
  let curvature := bending_moment.map (fun M => M / (elastic_modulus * moment_of_inertia))
  let slope := cumtrapz x_field curvature
  let deflectionRaw := cumtrapz x_field slope
  let endVal := lastD deflectionRaw 0
  let xLast := lastD x_field 0
  let correction := x_field.map (fun x => endVal * (x / xLast))
  let deflection := List.zipWith (fun a b => a - b) deflectionRaw correction
  (deflection, slope, curvature)

/-- Stress_solver.py `first_moment_of_area_rect` (lines 56-86): at each sample
`y`, the area above it `A' = width * (y_array[-1] - y)` times
`y' = (y_array[-1] + y)/2 - y`. -/
def first_moment_of_area_rect (width : ℚ) (y_array : List ℚ) : List ℚ :=
  y_array.map (fun y =>
    let Aprime := width * (lastD y_array 0 - y)
    let yprime := (lastD y_array 0 + y) / 2 - y
    Aprime * yprime)

/-- `np.max(np.abs(l))` over a list, with 0 as the fold seed; for nonempty
lists this equals the maximum absolute value since every `|m|` is
nonnegative. -/
def maxAbs (l : List ℚ) : ℚ := l.foldl (fun a b => max a |b|) 0

/-- Stress_solver.py `Factor_of_Safety` (lines 143-170):
`yield_strength / (max(|M|) * c / Ix)`. -/
def Factor_of_Safety (bending_moment : List ℚ) (c yield_strength moment_of_inertia : ℚ) : ℚ :=
  let max_bending_stress := maxAbs bending_moment * c / moment_of_inertia
  yield_strength / max_bending_stress

/-- Reaction portion of SuperSolver.py `solve_simple_beam` (lines 21-43):
`F_sum` and the moment sum `M_A` about `A`, then `Vb = M_A/(B-A)`,
`Va = F_sum - Vb`, `Ha = 0`.  Returned as `(Va, Ha, Vb)` in the order of the
source's result list; SuperSolver ignores triangular loads entirely. -/
def superSolverReactions (A B : ℚ) (pls : List PointLoad)
    (dls : List DistLoad) (mls : List MomentLoad) : ℚ × ℚ × ℚ :=
  let Fsum := (pls.map (fun p => p.fy)).sum + (dls.map (fun d => d.fy * (d.xend - d.xstart))).sum
  let MA := (pls.map (fun p => p.fy * (p.xp - A))).sum
    + (dls.map (fun d => (d.fy * (d.xend - d.xstart)) * ((d.xstart + d.xend) / 2 - A))).sum
    + (mls.map (fun m => m.m)).sum
  let Vb := MA / (B - A)
  let Va := Fsum - Vb
  (Va, 0, Vb)

/-- Spec-side total resultant force `ΣF_i` of the claimed moment-balance
relation, with each load's resultant per the source's branch rules. -/
def resultantSum (pls : List PointLoad) (dls : List DistLoad) (tls : List TriLoad) : ℚ :=
  (pls.map (fun p => p.fy)).sum + (dls.map DistLoad.Fres).sum + (tls.map TriLoad.Fres).sum

/-- Spec-side moment sum with lever arms `A - x_r` (the arm orientation the
source actually uses), plus the point-moment magnitudes. -/
def momentSumAtA (A : ℚ) (pls : List PointLoad) (mls : List MomentLoad)
    (dls : List DistLoad) (tls : List TriLoad) : ℚ :=
  (pls.map (fun p => p.fy * (A - p.xp))).sum
  + (dls.map (fun d => d.Fres * (A - d.Xres))).sum
  + (tls.map (fun t => t.Fres * (A - t.Xres))).sum
  + (mls.map (fun m => m.m)).sum

/-- Spec-side moment sum with the claimed lever arms `x_r - A`, for the loads
SuperSolver handles (point loads, UDLs, point moments). -/
def momentSumSpec (A : ℚ) (pls : List PointLoad) (dls : List DistLoad)
    (mls : List MomentLoad) : ℚ :=
  (pls.map (fun p => p.fy * (p.xp - A))).sum
  + (dls.map (fun d => d.Fres * (d.Xres - A))).sum
  + (mls.map (fun m => m.m)).sum

lemma sumMapAdd {α : Type} (f g : α → ℚ) (l : List α) :
    (l.map (fun a => f a + g a)).sum = (l.map f).sum + (l.map g).sum := by
  induction l with
  | nil => simp
  | cons a l ih => simp only [List.map_cons, List.sum_cons, ih]; ring

lemma sumMapNeg {α : Type} (f : α → ℚ) (l : List α) :
    (l.map (fun a => -(f a))).sum = -(l.map f).sum := by
  induction l with
  | nil => simp
  | cons a l ih => simp only [List.map_cons, List.sum_cons, ih]; ring

lemma sumMapDiv {α : Type} (f : α → ℚ) (d : ℚ) (l : List α) :
    (l.map (fun a => f a / d)).sum = (l.map f).sum / d := by
  induction l with
  | nil => simp
  | cons a l ih => simp only [List.map_cons, List.sum_cons, ih]; ring

lemma sumMapCongr {α : Type} {l : List α} {f g : α → ℚ} (h : ∀ a ∈ l, f a = g a) :
    (l.map f).sum = (l.map g).sum := by
  rw [List.map_congr_left h]

lemma abs_not_pos_eq_zero {q : ℚ} (h : ¬ |q| > 0) : q = 0 := by
  have := abs_nonneg q
  have hq : |q| = 0 := le_antisymm (not_lt.mp h) this
  exact abs_eq_zero.mp hq

/-- Claim C1 (amended): the cantilever reaction satisfies
`Va + Σ(applied vertical forces) = 0` for every load set, trapezoidal
triangular loads included; the simple-beam reactions satisfy
`Va + Vb + Σ(applied vertical forces) = 0` exactly whenever every triangular
load is a pure triangle (at least one end intensity zero). -/
theorem vertical_equilibrium_pure_triangles (A B : ℚ) (pls : List PointLoad)
    (mls : List MomentLoad) (dls : List DistLoad) (tls : List TriLoad) :
    (Calculate_Cantilever_Reactions pls mls dls tls).1
      + totalAppliedFy pls dls tls = 0
    ∧ ((∀ t ∈ tls, t.fyStart = 0 ∨ t.fyEnd = 0) →
      (calculate_all_reactions A B pls mls dls tls).1
        + (calculate_all_reactions A B pls mls dls tls).2.1
        + totalAppliedFy pls dls tls = 0) := by
  constructor
  · simp only [Calculate_Cantilever_Reactions, totalAppliedFy, TriLoad.totalForce]
    rw [sumMapNeg, sumMapNeg, sumMapNeg]
    ring
  · intro h
    simp only [calculate_all_reactions, totalAppliedFy]
    have hp : (pls.map (fun p => -p.fy - p.fy * (A - p.xp) / (B - A))).sum
        + (pls.map (fun p => p.fy * (A - p.xp) / (B - A))).sum
        = -(pls.map (fun p => p.fy)).sum := by
      rw [← sumMapAdd, ← sumMapNeg]
      exact sumMapCongr (fun p _ => by ring)
    have hm : (mls.map (fun m => -(m.m / (B - A)))).sum
        + (mls.map (fun m => m.m / (B - A))).sum = 0 := by
      rw [← sumMapAdd]
      have : (mls.map (fun m => -(m.m / (B - A)) + m.m / (B - A))).sum
          = (mls.map (fun _ => (0 : ℚ))).sum := sumMapCongr (fun m _ => by ring)
      simp [this]
    have hd : (dls.map (fun d => -d.Fres - d.Fres * (A - d.Xres) / (B - A))).sum
        + (dls.map (fun d => d.Fres * (A - d.Xres) / (B - A))).sum
        = -(dls.map (fun d => d.fy * (d.xend - d.xstart))).sum := by
      rw [← sumMapAdd, ← sumMapNeg]
      exact sumMapCongr (fun d _ => by simp only [DistLoad.Fres]; ring)
    have ht : (tls.map (fun t => -t.Fres - t.Fres * (A - t.Xres) / (B - A))).sum
        + (tls.map (fun t => t.Fres * (A - t.Xres) / (B - A))).sum
        = -(tls.map (fun t => ((t.fyStart + t.fyEnd) / 2) * (t.xend - t.xstart))).sum := by
      rw [← sumMapAdd, ← sumMapNeg]
      refine sumMapCongr (fun t ht => ?_)
      have hbranch : t.Fres = ((t.fyStart + t.fyEnd) / 2) * (t.xend - t.xstart) := by
        rcases h t ht with h0 | h0
        · rw [TriLoad.Fres, if_neg (by simp [h0]), h0]
          ring
        · by_cases hfs : |t.fyStart| > 0
          · rw [TriLoad.Fres, if_pos hfs, h0]
            ring
          · have hz : t.fyStart = 0 := abs_not_pos_eq_zero hfs
            rw [TriLoad.Fres, if_neg hfs, hz, h0]
            ring
      rw [hbranch]
      ring
    linarith [hp, hm, hd, ht]

/-- Witness for claim C1: the cantilever identity at a concrete trapezoidal
triangular load `[0, 2, 10, 10]`, and both identities at a concrete mixed
load set (point load, point moment, UDL, falling triangle) on a 2 m beam,
with the pure-triangle hypothesis discharged. -/
theorem vertical_equilibrium_pure_triangles_witness :
    (∀ t ∈ [({ xstart := 0, xend := 2, fyStart := 4, fyEnd := 0 } : TriLoad)],
      t.fyStart = 0 ∨ t.fyEnd = 0)
    ∧ (Calculate_Cantilever_Reactions [] [] [] [⟨0, 2, 10, 10⟩]).1
        + totalAppliedFy [] [] [⟨0, 2, 10, 10⟩] = 0
    ∧ (Calculate_Cantilever_Reactions [⟨1, 0, -10⟩] [⟨1, 5⟩] [⟨0, 2, -3⟩] [⟨0, 2, 4, 0⟩]).1
        + totalAppliedFy [⟨1, 0, -10⟩] [⟨0, 2, -3⟩] [⟨0, 2, 4, 0⟩] = 0
    ∧ (calculate_all_reactions 0 2 [⟨1, 0, -10⟩] [⟨1, 5⟩] [⟨0, 2, -3⟩] [⟨0, 2, 4, 0⟩]).1
        + (calculate_all_reactions 0 2 [⟨1, 0, -10⟩] [⟨1, 5⟩] [⟨0, 2, -3⟩] [⟨0, 2, 4, 0⟩]).2.1
        + totalAppliedFy [⟨1, 0, -10⟩] [⟨0, 2, -3⟩] [⟨0, 2, 4, 0⟩] = 0 :=
  ⟨fun t ht => by rw [List.mem_singleton] at ht; rw [ht]; right; rfl,
   (vertical_equilibrium_pure_triangles 0 2 [] [] [] [⟨0, 2, 10, 10⟩]).1,
   (vertical_equilibrium_pure_triangles 0 2 [⟨1, 0, -10⟩] [⟨1, 5⟩] [⟨0, 2, -3⟩]
     [⟨0, 2, 4, 0⟩]).1,
   (vertical_equilibrium_pure_triangles 0 2 [⟨1, 0, -10⟩] [⟨1, 5⟩] [⟨0, 2, -3⟩]
     [⟨0, 2, 4, 0⟩]).2
     (fun t ht => by rw [List.mem_singleton] at ht; rw [ht]; right; rfl)⟩

/-- Counterexample for claim C1 as stated: for the trapezoidal triangular load
`[0, 2, 10, 10]` (applied vertical force 20) on a simple beam with supports at
0 and 2, the solver treats the load as the half-triangle `0.5*10*2 = 10`, so
`Va + Vb + 20 = 10 ≠ 0`. -/
theorem vertical_equilibrium_trapezoid_fails :
    (calculate_all_reactions 0 2 [] [] [] [⟨0, 2, 10, 10⟩]).1
      + (calculate_all_reactions 0 2 [] [] [] [⟨0, 2, 10, 10⟩]).2.1
      + totalAppliedFy [] [] [⟨0, 2, 10, 10⟩] ≠ 0 := by
  norm_num [calculate_all_reactions, totalAppliedFy, TriLoad.Fres, TriLoad.Xres]

/-- Claim C2 (amended): for `B ≠ A`, Solver.py's simple-beam reactions satisfy
the moment balance with lever arms `A - x_r` (not `x _r - A` as claimed):
`Vb*(B-A) = Σ F_i*(A - x_r,i) + Σ M_i`, together with `Va = -ΣF_i - Vb`;
SuperSolver.py uses the claimed arms `x_r - A` but pairs them with
`Va = ΣF_i - Vb` instead of `Va = -ΣF_i - Vb`. -/
theorem moment_balance_about_A (A B : ℚ) (pls : List PointLoad) (mls : List MomentLoad)
    (dls : List DistLoad) (tls : List TriLoad) (h : B ≠ A) :
    (calculate_all_reactions A B pls mls dls tls).2.1 * (B - A)
      = momentSumAtA A pls mls dls tls
    ∧ (calculate_all_reactions A B pls mls dls tls).1
      = -(resultantSum pls dls tls) - (calculate_all_reactions A B pls mls dls tls).2.1
    ∧ (superSolverReactions A B pls dls mls).2.2 * (B - A) = momentSumSpec A pls dls mls
    ∧ (superSolverReactions A B pls dls mls).1
      = ((pls.map (fun p => p.fy)).sum + (dls.map (fun d => d.fy * (d.xend - d.xstart))).sum)
        - (superSolverReactions A B pls dls mls).2.2 := by
  have hBA : B - A ≠ 0 := sub_ne_zero_of_ne h
  refine ⟨?_, ?_, ?_, ?_⟩
  · simp only [calculate_all_reactions, momentSumAtA]
    rw [sumMapDiv, sumMapDiv, sumMapDiv, sumMapDiv,
      div_add_div_same, div_add_div_same, div_add_div_same, div_mul_cancel₀ _ hBA]
    ring
  · simp only [calculate_all_reactions, resultantSum]
    have hp : (pls.map (fun p => -p.fy - p.fy * (A - p.xp) / (B - A))).sum
        + (pls.map (fun p => p.fy * (A - p.xp) / (B - A))).sum
        = -(pls.map (fun p => p.fy)).sum := by
      rw [← sumMapAdd, ← sumMapNeg]
      exact sumMapCongr (fun p _ => by ring)
    have hm : (mls.map (fun m => -(m.m / (B - A)))).sum
        + (mls.map (fun m => m.m / (B - A))).sum = 0 := by
      rw [← sumMapAdd]
      have h0 : (mls.map (fun m => -(m.m / (B - A)) + m.m / (B - A))).sum
          = (mls.map (fun _ => (0 : ℚ))).sum := sumMapCongr (fun m _ => by ring)
      simp [h0]
    have hd : (dls.map (fun d => -d.Fres - d.Fres * (A - d.Xres) / (B - A))).sum
        + (dls.map (fun d => d.Fres * (A - d.Xres) / (B - A))).sum
        = -(dls.map DistLoad.Fres).sum := by
      rw [← sumMapAdd, ← sumMapNeg]
      exact sumMapCongr (fun d _ => by ring)
    have ht : (tls.map (fun t => -t.Fres - t.Fres * (A - t.Xres) / (B - A))).sum
        + (tls.map (fun t => t.Fres * (A - t.Xres) / (B - A))).sum
        = -(tls.map TriLoad.Fres).sum := by
      rw [← sumMapAdd, ← sumMapNeg]
      exact sumMapCongr (fun t _ => by ring)
    linarith [hp, hm, hd, ht]
  · simp only [superSolverReactions, momentSumSpec]
    rw [div_mul_cancel₀ _ hBA]
    have hd : (dls.map (fun d => d.fy * (d.xend - d.xstart) * ((d.xstart + d.xend) / 2 - A))).sum
        = (dls.map (fun d => d.Fres * (d.Xres - A))).sum :=
      sumMapCongr (fun d _ => by simp only [DistLoad.Fres, DistLoad.Xres]; ring)
    linarith [hd]
  · simp only [superSolverReactions]

/-- Witness for claim C2 on a 6 m simple beam with supports at 0 and 6,
carrying a point load, a point moment, a UDL and a falling triangle. -/
theorem moment_balance_about_A_witness :
    ((6 : ℚ) ≠ 0)
    ∧ ((calculate_all_reactions 0 6 [⟨3, 0, -10⟩] [⟨2, 4⟩] [⟨0, 6, -2⟩] [⟨0, 3, 6, 0⟩]).2.1 * (6 - 0)
        = momentSumAtA 0 [⟨3, 0, -10⟩] [⟨2, 4⟩] [⟨0, 6, -2⟩] [⟨0, 3, 6, 0⟩]
      ∧ (calculate_all_reactions 0 6 [⟨3, 0, -10⟩] [⟨2, 4⟩] [⟨0, 6, -2⟩] [⟨0, 3, 6, 0⟩]).1
        = -(resultantSum [⟨3, 0, -10⟩] [⟨0, 6, -2⟩] [⟨0, 3, 6, 0⟩])
          - (calculate_all_reactions 0 6 [⟨3, 0, -10⟩] [⟨2, 4⟩] [⟨0, 6, -2⟩] [⟨0, 3, 6, 0⟩]).2.1
      ∧ (superSolverReactions 0 6 [⟨3, 0, -10⟩] [⟨0, 6, -2⟩] [⟨2, 4⟩]).2.2 * (6 - 0)
        = momentSumSpec 0 [⟨3, 0, -10⟩] [⟨0, 6, -2⟩] [⟨2, 4⟩]
      ∧ (superSolverReactions 0 6 [⟨3, 0, -10⟩] [⟨0, 6, -2⟩] [⟨2, 4⟩]).1
        = (([⟨3, 0, -10⟩] : List PointLoad).map (fun p => p.fy)).sum
            + (([⟨0, 6, -2⟩] : List DistLoad).map (fun d => d.fy * (d.xend - d.xstart))).sum
          - (superSolverReactions 0 6 [⟨3, 0, -10⟩] [⟨0, 6, -2⟩] [⟨2, 4⟩]).2.2) :=
  ⟨by norm_num,
   moment_balance_about_A 0 6 [⟨3, 0, -10⟩] [⟨2, 4⟩] [⟨0, 6, -2⟩] [⟨0, 3, 6, 0⟩] (by norm_num)⟩

/-- Counterexample for claim C2 as stated: for a single point load `Fy = -10`
at `x = 3` with supports `A = 0`, `B = 6`, the solver's `Vb = 5` gives
`Vb*(B-A) = 30`, while the claimed right side `Σ F_i*(x_r,i - A) + Σ M_i`
is `-30`. -/
theorem moment_balance_claimed_arm_fails :
    ¬ ((calculate_all_reactions 0 6 [⟨3, 0, -10⟩] [] [] []).2.1 * (6 - 0)
        = momentSumSpec 0 [⟨3, 0, -10⟩] [] []) := by
  norm_num [calculate_all_reactions, momentSumSpec]

lemma mapZipAdd (X : List ℚ) (F f g : ℚ → ℚ) (h : ∀ x, F x = f x + g x) :
    X.map F = List.zipWith (fun a b => a + b) (X.map f) (X.map g) := by
  induction X with
  | nil => rfl
  | cons x xs ih => simp only [List.map_cons, List.zipWith_cons_cons, ih, h]

lemma sfAt_add (A B : ℚ) (R1 R2 : ℚ × ℚ × ℚ) (p1 p2 : List PointLoad)
    (d1 d2 : List DistLoad) (t1 t2 : List TriLoad) (x : ℚ) :
    sfAt A B (R1.1 + R2.1, R1.2.1 + R2.2.1, R1.2.2 + R2.2.2) (p1 ++ p2) (d1 ++ d2) (t1 ++ t2) x
      = sfAt A B R1 p1 d1 t1 x + sfAt A B R2 p2 d2 t2 x := by
  simp only [sfAt, List.map_append, List.sum_append]
  by_cases hA : x > A <;> by_cases hB : x > B <;> simp only [hA, hB, if_true, if_false] <;> ring

lemma bmRawAt_add (A B : ℚ) (R1 R2 : ℚ × ℚ × ℚ) (p1 p2 : List PointLoad)
    (m1 m2 : List MomentLoad) (d1 d2 : List DistLoad) (t1 t2 : List TriLoad) (x : ℚ) :
    bmRawAt A B (R1.1 + R2.1, R1.2.1 + R2.2.1, R1.2.2 + R2.2.2)
        (p1 ++ p2) (m1 ++ m2) (d1 ++ d2) (t1 ++ t2) x
      = bmRawAt A B R1 p1 m1 d1 t1 x + bmRawAt A B R2 p2 m2 d2 t2 x := by
  simp only [bmRawAt, List.map_append, List.sum_append]
  by_cases hA : x > A <;> by_cases hB : x > B <;> simp only [hA, hB, if_true, if_false] <;> ring

/-- Claim C3 (confirmed): solving the simple beam with two load lists applied
together gives reactions and shear/bending-moment arrays equal to the
elementwise sums of the two separate solves, exactly in rational
arithmetic. -/
theorem simple_beam_superposition (X : List ℚ) (A B : ℚ)
    (p1 p2 : List PointLoad) (m1 m2 : List MomentLoad)
    (d1 d2 : List DistLoad) (t1 t2 : List TriLoad) :
    calculate_all_reactions A B (p1 ++ p2) (m1 ++ m2) (d1 ++ d2) (t1 ++ t2)
      = ((calculate_all_reactions A B p1 m1 d1 t1).1 + (calculate_all_reactions A B p2 m2 d2 t2).1,
         (calculate_all_reactions A B p1 m1 d1 t1).2.1 + (calculate_all_reactions A B p2 m2 d2 t2).2.1,
         (calculate_all_reactions A B p1 m1 d1 t1).2.2 + (calculate_all_reactions A B p2 m2 d2 t2).2.2)
    ∧ (calculate_sf_bm X A B (p1 ++ p2) (m1 ++ m2) (d1 ++ d2) (t1 ++ t2)
        (calculate_all_reactions A B (p1 ++ p2) (m1 ++ m2) (d1 ++ d2) (t1 ++ t2))).1
      = List.zipWith (fun a b => a + b)
          (calculate_sf_bm X A B p1 m1 d1 t1 (calculate_all_reactions A B p1 m1 d1 t1)).1
          (calculate_sf_bm X A B p2 m2 d2 t2 (calculate_all_reactions A B p2 m2 d2 t2)).1
    ∧ (calculate_sf_bm X A B (p1 ++ p2) (m1 ++ m2) (d1 ++ d2) (t1 ++ t2)
        (calculate_all_reactions A B (p1 ++ p2) (m1 ++ m2) (d1 ++ d2) (t1 ++ t2))).2
      = List.zipWith (fun a b => a + b)
          (calculate_sf_bm X A B p1 m1 d1 t1 (calculate_all_reactions A B p1 m1 d1 t1)).2
          (calculate_sf_bm X A B p2 m2 d2 t2 (calculate_all_reactions A B p2 m2 d2 t2)).2 := by
  have hR : calculate_all_reactions A B (p1 ++ p2) (m1 ++ m2) (d1 ++ d2) (t1 ++ t2)
      = ((calculate_all_reactions A B p1 m1 d1 t1).1 + (calculate_all_reactions A B p2 m2 d2 t2).1,
         (calculate_all_reactions A B p1 m1 d1 t1).2.1 + (calculate_all_reactions A B p2 m2 d2 t2).2.1,
         (calculate_all_reactions A B p1 m1 d1 t1).2.2 + (calculate_all_reactions A B p2 m2 d2 t2).2.2) := by
    simp only [calculate_all_reactions, List.map_append, List.sum_append, Prod.mk.injEq]
    refine ⟨by ring, by abel, trivial⟩
  refine ⟨hR, ?_, ?_⟩
  · simp only [calculate_sf_bm]
    rw [hR]
    exact mapZipAdd X _ _ _ (fun x => sfAt_add A B _ _ p1 p2 d1 d2 t1 t2 x)
  · simp only [calculate_sf_bm]
    rw [hR]
    refine mapZipAdd X _ _ _ (fun x => ?_)
    rw [bmRawAt_add A B _ _ p1 p2 m1 m2 d1 d2 t1 t2 x]
    ring

lemma lastD_cons_cons (a b : ℚ) (t : List ℚ) (d : ℚ) :
    lastD (a :: b :: t) d = lastD (b :: t) d := rfl

lemma cumtrapzGo_length (xs : List ℚ) : ∀ (ys : List ℚ) (xp yp acc : ℚ),
    (cumtrapzGo xp yp acc xs ys).length = min xs.length ys.length := by
  induction xs with
  | nil => intro ys xp yp acc; cases ys <;> simp [cumtrapzGo]
  | cons x xs ih =>
    intro ys xp yp acc
    cases ys with
    | nil => simp [cumtrapzGo]
    | cons y ys =>
      simp only [cumtrapzGo, List.length_cons, ih]
      omega

lemma cumtrapz_length (xs ys : List ℚ) :
    (cumtrapz xs ys).length = min xs.length ys.length := by
  cases xs with
  | nil => cases ys <;> simp [cumtrapz]
  | cons x xs =>
    cases ys with
    | nil => simp [cumtrapz]
    | cons y ys =>
      simp only [cumtrapz, List.length_cons, cumtrapzGo_length]
      omega

lemma map_lastD (f : ℚ → ℚ) (x : ℚ) (l : List ℚ) (d : ℚ) :
    lastD ((x :: l).map f) d = f (lastD (x :: l) 0) := by
  induction l generalizing x d with
  | nil => rfl
  | cons y l ih =>
    show lastD (f x :: f y :: l.map f) d = f (lastD (x :: y :: l) 0)
    rw [lastD_cons_cons, lastD_cons_cons]
    exact ih y d

lemma zipWithSub_lastD (a : List ℚ) : ∀ (b : List ℚ) (da db : ℚ),
    a.length = b.length →
    lastD (List.zipWith (fun u v => u - v) a b) (da - db) = lastD a da - lastD b db := by
  induction a with
  | nil =>
    intro b da db h
    cases b with
    | nil => rfl
    | cons y ys => simp at h
  | cons x xs ih =>
    intro b da db h
    cases b with
    | nil => simp at h
    | cons y ys =>
      cases xs with
      | nil =>
        cases ys with
        | nil => rfl
        | cons y2 ys2 => simp at h
      | cons x2 xs2 =>
        cases ys with
        | nil => simp at h
        | cons y2 ys2 =>
          have hlen : (x2 :: xs2).length = (y2 :: ys2).length := by simpa using h
          have hih := ih (y2 :: ys2) da db hlen
          simpa [List.zipWith_cons_cons, lastD_cons_cons] using hih

/-- Claim C4 (amended): the slope returned by the deflection solver is exactly
the unconstrained cumulative trapezoidal integral of curvature and satisfies
`slope(0) = 0`, and the deflection satisfies `deflection(0) = 0`; but the
solver applies the simply-supported linear end correction unconditionally
(there is no beam-type parameter), so the returned deflection is the
unconstrained double integral minus `deflection_raw[-1] * x/x[-1]` and is
forced to `deflection(x_last) = 0` even for a cantilever analysis. -/
theorem deflection_end_anchored (x0 : ℚ) (xrest Ms : List ℚ) (E I : ℚ)
    (h0 : x0 = 0) (hlast : lastD (x0 :: xrest) 0 ≠ 0)
    (hlen : Ms.length = (x0 :: xrest).length) :
    (calculate_beam_deflection (x0 :: xrest) Ms E I).2.1
        = cumtrapz (x0 :: xrest) (Ms.map (fun M => M / (E * I)))
    ∧ (calculate_beam_deflection (x0 :: xrest) Ms E I).2.1.headD 0 = 0
    ∧ (calculate_beam_deflection (x0 :: xrest) Ms E I).1.headD 0 = 0
    ∧ lastD (calculate_beam_deflection (x0 :: xrest) Ms E I).1 0 = 0 := by
  cases Ms with
  | nil => simp at hlen
  | cons M Mt =>
    subst h0
    refine ⟨rfl, ?_, ?_, ?_⟩
    · simp [calculate_beam_deflection, cumtrapz]
    · simp [calculate_beam_deflection, cumtrapz]
    · simp only [calculate_beam_deflection]
      set xs : List ℚ := 0 :: xrest with hxs
      set curvature : List ℚ := (M :: Mt).map (fun M => M / (E * I)) with hcurv
      set slope : List ℚ := cumtrapz xs curvature with hslope
      set raw : List ℚ := cumtrapz xs slope with hraw
      set L : ℚ := lastD raw 0 with hL
      set xlast : ℚ := lastD xs 0 with hxl
      have hclen : curvature.length = xs.length := by
        simp [hcurv, hxs]
        simpa [hxs] using hlen
      have hslen : slope.length = xs.length := by
        rw [hslope, cumtrapz_length, hclen]
        omega
      have hrlen : raw.length = xs.length := by
        rw [hraw, cumtrapz_length, hslen]
        omega
      have hmlen : raw.length = (xs.map (fun x => L * (x / xlast))).length := by
        rw [hrlen, List.length_map]
      have hzip := zipWithSub_lastD raw (xs.map (fun x => L * (x / xlast))) 0 0 hmlen
      have h00 : (0 : ℚ) - 0 = 0 := by norm_num
      rw [h00] at hzip
      have hcorr : lastD (xs.map (fun x => L * (x / xlast))) 0 = L := by
        rw [hxs, map_lastD]
        rw [← hxs, ← hxl, div_self hlast, mul_one]
      rw [hzip, hcorr, ← hL]
      ring

/-- Witness for claim C4 on the grid `[0,1,2]` with bending moments `[2,1,0]`
and `E = I = 1`. -/
theorem deflection_end_anchored_witness :
    ((0 : ℚ) = 0)
    ∧ lastD [(0 : ℚ), 1, 2] 0 ≠ 0
    ∧ ([(2 : ℚ), 1, 0] : List ℚ).length = ([(0 : ℚ), 1, 2] : List ℚ).length
    ∧ ((calculate_beam_deflection [0, 1, 2] [2, 1, 0] 1 1).2.1
        = cumtrapz [0, 1, 2] (([(2 : ℚ), 1, 0]).map (fun M => M / (1 * 1)))
      ∧ (calculate_beam_deflection [0, 1, 2] [2, 1, 0] 1 1).2.1.headD 0 = 0
      ∧ (calculate_beam_deflection [0, 1, 2] [2, 1, 0] 1 1).1.headD 0 = 0
      ∧ lastD (calculate_beam_deflection [0, 1, 2] [2, 1, 0] 1 1).1 0 = 0) :=
  ⟨rfl, by norm_num [lastD], rfl,
   deflection_end_anchored 0 [1, 2] [2, 1, 0] 1 1 rfl (by norm_num [lastD]) rfl⟩

/-- Counterexample for claim C4 as stated: on the grid `[0,1,2]` with bending
moments `[2,1,0]` and `E = I = 1`, the returned deflection is
`[0, -1/2, 0]` while the unconstrained cumulative trapezoidal integral of the
slope is `[0, 3/4, 5/2]` — the linear end correction was applied even though
this is exactly the cantilever-shaped moment diagram. -/
theorem deflection_not_unconstrained_integral :
    (calculate_beam_deflection [0, 1, 2] [2, 1, 0] 1 1).1
      ≠ cumtrapz [0, 1, 2] (calculate_beam_deflection [0, 1, 2] [2, 1, 0] 1 1).2.1 := by
  norm_num [calculate_beam_deflection, cumtrapz, cumtrapzGo, lastD]

/-- Claim C5 (amended): for the triangular load `[0, 4, 10, 0]` the
`abs(Fy_start) > 0` branch of the reaction solver uses resultant force
`0.5*10*4 = 20` and resultant position `x = 4*(1/3) ≈ 1.333 m` from the start
of the span (the peak sits at the start, so the centroid is at one third of
the span, not two thirds); with supports at 0 and 4 this yields
`Vb = 20*(0 - 4/3)/4 = -20/3`. -/
theorem trl_scenario3_resultant :
    TriLoad.Fres ⟨0, 4, 10, 0⟩ = 20
    ∧ TriLoad.Xres ⟨0, 4, 10, 0⟩ = 4 * (1/3)
    ∧ (calculate_all_reactions 0 4 [] [] [] [⟨0, 4, 10, 0⟩]).2.1 = -20/3 := by
  refine ⟨?_, ?_, ?_⟩
  · norm_num [TriLoad.Fres, abs_pos]
  · norm_num [TriLoad.Xres, abs_pos]
  · norm_num [calculate_all_reactions, TriLoad.Fres, TriLoad.Xres, abs_pos]

/-- Counterexample for claim C5 as stated: the branch's resultant position for
`[0, 4, 10, 0]` is `4/3`, not `4*(2/3) = 8/3` as the claim asserts. -/
theorem trl_scenario3_centroid_fails :
    TriLoad.Xres ⟨0, 4, 10, 0⟩ ≠ 4 * (2/3) := by
  norm_num [TriLoad.Xres, abs_pos]

lemma solve_cant_R (L : ℚ) (pls : List PointLoad) (dls : List DistLoad)
    (mls : List MomentLoad) (tls : List TriLoad) :
    (solve_cantilever_beam L pls dls mls tls).R
      = Calculate_Cantilever_Reactions pls mls dls tls := rfl

lemma solve_cant_BM_head (L : ℚ) (pls : List PointLoad) (dls : List DistLoad)
    (mls : List MomentLoad) (tls : List TriLoad) :
    (solve_cantilever_beam L pls dls mls tls).BM[0]?
      = some (-(Calculate_Cantilever_Reactions pls mls dls tls).2.2) := by
  simp only [solve_cantilever_beam, Calculate_SF_BM_Cantilever, initialize_solver]
  rw [List.getElem?_map,
    List.getElem?_set_self (by rw [List.length_map, List.length_map, List.length_range]; norm_num)]
  rfl

/-- Claim C6 (amended): for the 3 m cantilever with point load `(3, 0, -10)`,
the reaction solver returns `Ma = 30`; the raw bending-moment array from
`Calculate_SF_BM_Cantilever` has value `Ma = 30` at `x = 0` and `0` at
`x = 3`, but `solve_cantilever_beam` returns the negated array, so the
bending-moment array it returns has value `-Ma = -30` at `x = 0` and `0` at
`x = 3`. -/
theorem cantilever_scenario2 :
    (Calculate_Cantilever_Reactions [⟨3, 0, -10⟩] [] [] []).2.2 = 30
    ∧ (Calculate_SF_BM_Cantilever (initialize_solver 3).1 10 0 30
        [⟨3, 0, -10⟩] [] [] []).2[0]? = some (30 : ℚ)
    ∧ (solve_cantilever_beam 3 [⟨3, 0, -10⟩] [] [] []).BM[0]? = some ((-30 : ℚ))
    ∧ (solve_cantilever_beam 3 [⟨3, 0, -10⟩] [] [] []).BM[10000]? = some ((0 : ℚ)) := by
  have hMa : (Calculate_Cantilever_Reactions [⟨3, 0, -10⟩] [] [] []).2.2 = 30 := by
    norm_num [Calculate_Cantilever_Reactions]
  refine ⟨hMa, ?_, ?_, ?_⟩
  · simp only [Calculate_SF_BM_Cantilever, initialize_solver]
    rw [List.getElem?_set_self
      (by rw [List.length_map, List.length_map, List.length_range]; norm_num)]
  · rw [solve_cant_BM_head, hMa]
  · simp only [solve_cantilever_beam, Calculate_SF_BM_Cantilever, initialize_solver]
    rw [List.getElem?_map, List.getElem?_set_ne (by norm_num), List.getElem?_map,
      List.getElem?_map, List.getElem?_range (by norm_num)]
    simp only [Option.map_some']
    norm_num [cantBmAt]

/-- Counterexample for claim C6 as stated: `solve_cantilever_beam` reports
`Ma = 30` in its reactions, but the bending-moment array it returns holds
`-30` at `x = 0`, not the fixed-end reaction moment `Ma`. -/
theorem cantilever_scenario2_bm_head_not_Ma :
    (solve_cantilever_beam 3 [⟨3, 0, -10⟩] [] [] []).R.2.2 = 30
    ∧ ¬ ((solve_cantilever_beam 3 [⟨3, 0, -10⟩] [] [] []).BM[0]?
        = some ((solve_cantilever_beam 3 [⟨3, 0, -10⟩] [] [] []).R.2.2)) := by
  have hR : (solve_cantilever_beam 3 [⟨3, 0, -10⟩] [] [] []).R.2.2 = 30 := by
    rw [solve_cant_R]
    norm_num [Calculate_Cantilever_Reactions]
  refine ⟨hR, ?_⟩
  rw [solve_cant_BM_head, solve_cant_R]
  norm_num [Calculate_Cantilever_Reactions]

/-- Claim C7 (amended): the solver entry point does not reject `B ≤ A`,
zero-length load spans, negative beam length, or out-of-range supports; for
every such configuration it still returns a computed result.  The only
conditions surfaced as errors are a missing support position in the
`"Simple"` branch and an unrecognized `beam_type` string. -/
theorem invalid_config_not_rejected (L a b : ℚ) (pls : List PointLoad)
    (mls : List MomentLoad) (dls : List DistLoad) (tls : List TriLoad)
    (_h : b ≤ a) :
    isError (solve_simple_beam L (some a) (some b) pls mls dls tls "Simple") = false := rfl

/-- Witness for claim C7: a 10 m beam with roller left of the pin
(`A = 5`, `B = 2`) is still solved without an error. -/
theorem invalid_config_not_rejected_witness :
    ((2 : ℚ) ≤ 5)
    ∧ isError (solve_simple_beam 10 (some 5) (some 2) [⟨3, 0, -10⟩] [] [] [] "Simple")
        = false :=
  ⟨by norm_num,
   invalid_config_not_rejected 10 5 2 [⟨3, 0, -10⟩] [] [] [] (by norm_num)⟩

/-- Counterexample for claim C7 as stated: a configuration violating every
listed rule at once — negative length `-1`, supports `A = 5 > B = 2` outside
`[0, length]`, a zero-length UDL span and a zero-length TRL span — is
accepted and produces a result instead of a typed error. -/
theorem invalid_config_accepted :
    isError (solve_simple_beam (-1) (some 5) (some 2) [] [] [⟨2, 2, 5⟩] [⟨1, 1, 3, 4⟩]
      "Simple") = false := rfl

/-- Claim C10 (confirmed): `solve_simple_beam` errors exactly when the
`beam_type` string is neither `"Simple"` nor `"Cantilever"` (case-sensitive,
so the lowercase names in its own docstring and error message are rejected),
or when it is `"Simple"` and a support position is missing; in every other
case a result is produced. -/
theorem beam_type_validation (L : ℚ) (A B : Option ℚ) (pls : List PointLoad)
    (mls : List MomentLoad) (dls : List DistLoad) (tls : List TriLoad) (bt : String) :
    isError (solve_simple_beam L A B pls mls dls tls bt) = true
      ↔ (bt ≠ "Simple" ∧ bt ≠ "Cantilever")
        ∨ (bt = "Simple" ∧ (A = none ∨ B = none)) := by
  by_cases h1 : bt = "Simple"
  · subst h1
    cases A with
    | none => simp [solve_simple_beam, isError]
    | some a =>
      cases B with
      | none => simp [solve_simple_beam, isError]
      | some b => simp [solve_simple_beam, isError]
  · by_cases h2 : bt = "Cantilever"
    · subst h2
      simp [solve_simple_beam, isError]
    · simp [solve_simple_beam, isError, h1, h2]

/-- Claim C8 (amended): at each sample index `i`, the rectangular
first-moment-of-area function returns
`Q = b*(y_last - y_i)*((y_last - y_i)/2)` — the area above `y_i` times half
the strip height measured from `y_i`, where `y_last` is the last sample (the
claimed `b*|y|*(|y|/2)` does not match the code). -/
theorem first_moment_formula (w : ℚ) (ys : List ℚ) (i : ℕ) (h : i < ys.length) :
    (first_moment_of_area_rect w ys)[i]?
      = some (w * (lastD ys 0 - ys.getD i 0) * ((lastD ys 0 - ys.getD i 0) / 2)) := by
  have hy : ys.getD i 0 = ys[i] := by
    rw [List.getD_eq_getElem?_getD, List.getElem?_eq_getElem h]
    rfl
  rw [first_moment_of_area_rect, List.getElem?_map, List.getElem?_eq_getElem h,
    Option.map_some', hy]
  exact congrArg some (by ring)

/-- Witness for claim C8 at width 2 and samples `[-1, 0, 1]`, index 0:
`Q = 2*(1-(-1))*((1-(-1))/2) = 4`. -/
theorem first_moment_formula_witness :
    (0 < ([(-1 : ℚ), 0, 1] : List ℚ).length)
    ∧ (first_moment_of_area_rect 2 [-1, 0, 1])[0]?
      = some (2 * (lastD [(-1 : ℚ), 0, 1] 0 - ([(-1 : ℚ), 0, 1] : List ℚ).getD 0 0)
          * ((lastD [(-1 : ℚ), 0, 1] 0 - ([(-1 : ℚ), 0, 1] : List ℚ).getD 0 0) / 2)) :=
  ⟨by norm_num, first_moment_formula 2 [-1, 0, 1] 0 (by norm_num)⟩

/-- Counterexample for claim C8 as stated: at `y = -1` on samples `[-1,0,1]`
with width 2, the code returns `Q = 4` while the claimed
`b*|y|*(|y|/2) = 2*1*(1/2) = 1`. -/
theorem first_moment_claimed_formula_fails :
    (first_moment_of_area_rect 2 [-1, 0, 1])[0]?
      ≠ some (2 * |(-1 : ℚ)| * (|(-1 : ℚ)| / 2)) := by
  norm_num [first_moment_of_area_rect, lastD]

lemma foldl_maxAbs_init_le (l : List ℚ) : ∀ (a : ℚ),
    a ≤ l.foldl (fun acc b => max acc |b|) a := by
  induction l with
  | nil => intro a; exact le_refl a
  | cons x t ih =>
    intro a
    exact le_trans (le_max_left a |x|) (ih (max a |x|))

lemma mem_abs_le_foldl (l : List ℚ) : ∀ (a m : ℚ), m ∈ l →
    |m| ≤ l.foldl (fun acc b => max acc |b|) a := by
  induction l with
  | nil => intro a m hm; simp at hm
  | cons x t ih =>
    intro a m hm
    rcases List.mem_cons.mp hm with h | h
    · subst h
      exact le_trans (le_max_right a |m|) (foldl_maxAbs_init_le t (max a |m|))
    · exact ih (max a |x|) m h

lemma maxAbs_pos {M : List ℚ} (h : ∃ m ∈ M, m ≠ 0) : 0 < maxAbs M := by
  obtain ⟨m, hm, hne⟩ := h
  have h1 : 0 < |m| := abs_pos.mpr hne
  exact lt_of_lt_of_le h1 (mem_abs_le_foldl M 0 m hm)

/-- Claim C9 (confirmed): with a not-identically-zero bending-moment array,
`c > 0`, `yield_strength > 0` and `0 < Ix`, the factor of safety does not
decrease when `Ix` increases and does not increase when `yield_strength`
decreases. -/
theorem fos_monotone (M : List ℚ) (c ys ys2 I I2 : ℚ)
    (hM : ∃ m ∈ M, m ≠ 0) (hc : 0 < c) (hy : 0 < ys) (hy2 : ys2 ≤ ys)
    (hI : 0 < I) (hI2 : I ≤ I2) :
    Factor_of_Safety M c ys I ≤ Factor_of_Safety M c ys I2
    ∧ Factor_of_Safety M c ys2 I ≤ Factor_of_Safety M c ys I := by
  have hs : 0 < maxAbs M := maxAbs_pos hM
  have hsc : 0 < maxAbs M * c := mul_pos hs hc
  simp only [Factor_of_Safety]
  rw [div_div_eq_mul_div, div_div_eq_mul_div, div_div_eq_mul_div]
  constructor
  · exact (div_le_div_iff_of_pos_right hsc).mpr (mul_le_mul_of_nonneg_left hI2 (le_of_lt hy))
  · exact (div_le_div_iff_of_pos_right hsc).mpr (mul_le_mul_of_nonneg_right hy2 (le_of_lt hI))

/-- Witness for claim C9 at `M = [1]`, `c = 1`, yields 2 and 1, inertias
1 and 2. -/
theorem fos_monotone_witness :
    (∃ m ∈ [(1 : ℚ)], m ≠ 0) ∧ (0 : ℚ) < 1 ∧ (0 : ℚ) < 2 ∧ (1 : ℚ) ≤ 2
    ∧ (Factor_of_Safety [1] 1 2 1 ≤ Factor_of_Safety [1] 1 2 2
      ∧ Factor_of_Safety [1] 1 1 1 ≤ Factor_of_Safety [1] 1 2 1) :=
  ⟨⟨1, by norm_num⟩, by norm_num, by norm_num, by norm_num,
   fos_monotone [1] 1 2 1 1 2 ⟨1, by norm_num⟩ (by norm_num) (by norm_num)
     (by norm_num) (by norm_num) (by norm_num)⟩
